import Mathlib

/-!
Shallow embedding of the SimCubeLtd/terraform-provider-nexus provider
sources.  Go values are modelled as Lean structures, the Nexus HTTP
client as a record of response oracles, and each lifecycle callback as a
state-passing function that also returns the list of client calls it
performed.  A Go nil-pointer dereference is modelled by the dedicated
constructor `GoResult.nilDeref`.
-/

namespace NexusProvider

/-- Go `error` values are opaque to the provider; it only tests them
against nil and passes them through, so any inhabited type works. -/
abbrev Err := String

/-- `blobstore.SoftQuota` of the nexus client schema (also used as the
value of one `soft_quota` attribute block, whose keys are the same
`limit` and `type`). -/
structure SoftQuota where
  limit : Int
  sqType : String
  deriving DecidableEq, Repr

/-- `blobstore.File` of the nexus client schema.  The Go `SoftQuota`
field is a pointer; `none` is nil. -/
structure File where
  name : String
  path : String
  softQuota : Option SoftQuota
  deriving DecidableEq, Repr

/-- `blobstore.Generic` as used by `resourceBlobstoreFileRead`: only the
fields the provider reads. -/
structure Generic where
  name : String
  availableSpaceInBytes : Int
  blobCount : Int
  totalSizeInBytes : Int
  deriving DecidableEq, Repr

/-- The zero value of `blobstore.Generic`, the initial value of the
`genericBlobstoreInformation` variable in `resourceBlobstoreFileRead`. -/
def Generic.zero : Generic :=
  { name := "", availableSpaceInBytes := 0, blobCount := 0, totalSizeInBytes := 0 }

/-- `security.UserTokenConfiguration` of the nexus client schema. -/
structure UserTokenConfiguration where
  enabled : Bool
  protectContent : Bool
  deriving DecidableEq, Repr

/-- The part of a yum proxy repository object that the yum data source
copies into state (the exact field set does not matter to the claims). -/
structure YumProxyRepo where
  name : String
  online : Bool
  deriving DecidableEq, Repr

/-- One call made against the Nexus client library.  Calls that change
remote state are the write events. -/
inductive Event where
  | createFile (bs : File)
  | getFile (id : String)
  | updateFile (id : String) (bs : File)
  | deleteFile (id : String)
  | listBlobstores
  | getUserToken
  | configureUserToken (cfg : UserTokenConfiguration)
  | getYumProxyRepo (id : String)
  deriving DecidableEq, Repr

/-- Whether a client call writes to the remote system. -/
def Event.isWrite : Event → Bool
  | .createFile _ => true
  | .updateFile _ _ => true
  | .deleteFile _ => true
  | .configureUserToken _ => true
  | _ => false

/-- The Nexus client, modelled as a record of response oracles: each
field gives the result the external library would return for a call.
Go pairs `(*T, error)` become `Option T × Option Err`. -/
structure NexusClient where
  fileCreate : File → Option Err
  fileGet : String → Option File × Option Err
  fileUpdate : String → File → Option Err
  fileDelete : String → Option Err
  blobstoreList : Except Err (List Generic)
  userTokensGet : Option UserTokenConfiguration × Option Err
  userTokensConfigure : UserTokenConfiguration → Option Err
  yumProxyGet : String → Except Err YumProxyRepo

/-- Outcome of a Go lifecycle callback: either a nil-pointer
dereference (a runtime panic), or a returned `error` value together
with the final resource data and the list of client calls made. -/
inductive GoResult (σ : Type) where
  | nilDeref : GoResult σ
  | ok : Option Err → σ → List Event → GoResult σ
  deriving DecidableEq, Repr

/-- The client calls performed during a callback run. -/
def GoResult.events : GoResult σ → List Event
  | .nilDeref => []
  | .ok _ _ evs => evs

/-- Record one more (earlier) client call in a callback outcome. -/
def GoResult.prependEvent (ev : Event) : GoResult σ → GoResult σ
  | .nilDeref => .nilDeref
  | .ok e s evs => .ok e s (ev :: evs)

/-! ## resource_blobstore_file.go: resource data -/

/-- The Terraform resource data of the `nexus_blobstore_file` resource:
its id and the attributes of `resourceBlobstoreFile`'s schema.  `path`
is `none` when unset; `soft_quota` is a list attribute whose zero value
is the empty list. -/
structure BlobstoreFileState where
  id : String
  name : String
  path : Option String
  soft_quota : List SoftQuota
  available_space_in_bytes : Int
  blob_count : Int
  total_size_in_bytes : Int
  deriving DecidableEq, Repr

/-- `resourceData.Get("path")`: the zero value "" when unset. -/
def BlobstoreFileState.getPath (d : BlobstoreFileState) : String :=
  d.path.getD ""

/-- `resourceData.GetOk("path")`: true when the attribute is set to a
non-zero value. -/
def BlobstoreFileState.getOkPath (d : BlobstoreFileState) : Bool :=
  d.getPath ≠ ""

/-- `resourceData.GetOk("soft_quota")`: the zero value of a list
attribute is the empty list. -/
def BlobstoreFileState.getOkSoftQuota (d : BlobstoreFileState) : Bool :=
  d.soft_quota ≠ []

/-- `getBlobstoreFileFromResourceData` (resource_blobstore_file.go,
lines 95-114).  The Go `int64(... .(int))` conversion is the identity
on our unbounded integers. -/
def getBlobstoreFileFromResourceData (d : BlobstoreFileState) : File :=
  let bs : File := { name := d.name, path := "", softQuota := none }
  let bs := if d.getOkPath then { bs with path := d.getPath } else bs
  match d.soft_quota with
  | [] => bs
  | q :: _ => { bs with softQuota := some { limit := q.limit, sqType := q.sqType } }

/-! ## resource_blobstore_file.go: lifecycle callbacks -/

/-- Modelled from the spec: `flattenBlobstoreSoftQuota` is defined in a
file of this repository that is not under src/.  The provider maps the
client response objects "back into Terraform's typed attribute state",
so the flatten turns the soft-quota object into the one-block value of
the `soft_quota` list attribute. -/
def flattenBlobstoreSoftQuota (q : SoftQuota) : List SoftQuota := [q]

/-- The `for _, generic := range genericBlobstores` loop of
`resourceBlobstoreFileRead`: `genericBlobstoreInformation` starts as the
zero value and keeps the last generic whose name equals `name`. -/
def pickGenericByName (name : String) (gs : List Generic) : Generic :=
  gs.foldl (fun acc g => if g.name = name then g else acc) Generic.zero

/-- `resourceBlobstoreFileRead` (resource_blobstore_file.go, lines
134-182).  The range loop compares `generic.Name == bs.Name`, which
dereferences `bs`; when `BlobStore.File.Get` returned nil and the
generic list is non-empty this is a nil dereference.  The `bs == nil`
check only comes after the loop. -/
def resourceBlobstoreFileRead (client : NexusClient) (d : BlobstoreFileState) :
    GoResult BlobstoreFileState :=
  match client.fileGet d.id with
  | (_, some e) => .ok (some e) d [.getFile d.id]
  | (bsOpt, none) =>
    match client.blobstoreList with
    | .error e => .ok (some e) d [.getFile d.id, .listBlobstores]
    | .ok generics =>
      match bsOpt with
      | none =>
        match generics with
        | [] => .ok none { d with id := "" } [.getFile d.id, .listBlobstores]
        | _ :: _ => .nilDeref
      | some bs =>
        let gen := pickGenericByName bs.name generics
        let d := { d with
          available_space_in_bytes := gen.availableSpaceInBytes,
          blob_count := gen.blobCount,
          name := bs.name,
          path := some bs.path,
          total_size_in_bytes := gen.totalSizeInBytes }
        match bs.softQuota with
        | some q =>
          .ok none { d with soft_quota := flattenBlobstoreSoftQuota q }
            [.getFile d.id, .listBlobstores]
        | none => .ok none d [.getFile d.id, .listBlobstores]

/-- `resourceBlobstoreFileCreate` (resource_blobstore_file.go, lines
116-132).  Its final call is to `resourceBlobstoreRead`, a function of
this repository defined outside src/, so that read is taken as a
parameter. -/
def resourceBlobstoreFileCreate
    (resourceBlobstoreRead : NexusClient → BlobstoreFileState → GoResult BlobstoreFileState)
    (client : NexusClient) (d : BlobstoreFileState) : GoResult BlobstoreFileState :=
  let bs := getBlobstoreFileFromResourceData d
  match client.fileCreate bs with
  | some e => .ok (some e) d [.createFile bs]
  | none =>
    let d := { d with id := bs.name, name := bs.name }
    (resourceBlobstoreRead client d).prependEvent (.createFile bs)

/-- `resourceBlobstoreFileUpdate` (resource_blobstore_file.go, lines
184-193). -/
def resourceBlobstoreFileUpdate (client : NexusClient) (d : BlobstoreFileState) :
    GoResult BlobstoreFileState :=
  let bs := getBlobstoreFileFromResourceData d
  match client.fileUpdate d.id bs with
  | some e => .ok (some e) d [.updateFile d.id bs]
  | none => .ok none d [.updateFile d.id bs]

/-- `resourceBlobstoreFileDelete` (resource_blobstore_file.go, lines
195-205). -/
def resourceBlobstoreFileDelete (client : NexusClient) (d : BlobstoreFileState) :
    GoResult BlobstoreFileState :=
  match client.fileDelete d.id with
  | some e => .ok (some e) d [.deleteFile d.id]
  | none => .ok none { d with id := "" } [.deleteFile d.id]

/-- `resourceBlobstoreFileExists` (resource_blobstore_file.go, lines
207-212): returns `bs != nil` and the error from Get. -/
def resourceBlobstoreFileExists (client : NexusClient) (d : BlobstoreFileState) :
    Bool × Option Err × List Event :=
  match client.fileGet d.id with
  | (bsOpt, errOpt) => (bsOpt.isSome, errOpt, [.getFile d.id])

/-! ## resource_security_user_token.go -/

/-- The Terraform resource data of the `nexus_security_user_token`
resource: its id and the `enabled` and `protect_content` boolean
attributes (`protect_content` defaults to false, so `Get` always yields
a boolean). -/
structure UserTokenState where
  id : String
  enabled : Bool
  protect_content : Bool
  deriving DecidableEq, Repr

/-- `getSecurityUserTokenFromResourceData`
(resource_security_user_token.go, lines 41-46). -/
def getSecurityUserTokenFromResourceData (d : UserTokenState) : UserTokenConfiguration :=
  { enabled := d.enabled, protectContent := d.protect_content }

/-- `setSecurityUserTokenToResourceData`
(resource_security_user_token.go, lines 48-52): note the id literal
"golbalUserTokenConfiguration" as spelled in the source. -/
def setSecurityUserTokenToResourceData (token : UserTokenConfiguration)
    (d : UserTokenState) : UserTokenState :=
  { d with
    id := "golbalUserTokenConfiguration",
    enabled := token.enabled,
    protect_content := token.protectContent }

/-- `resourceSecurityUserTokenRead` (resource_security_user_token.go,
lines 54-62).  A nil configuration with a nil error would be
dereferenced by `setSecurityUserTokenToResourceData`. -/
def resourceSecurityUserTokenRead (client : NexusClient) (d : UserTokenState) :
    GoResult UserTokenState :=
  match client.userTokensGet with
  | (_, some e) => .ok (some e) d [.getUserToken]
  | (none, none) => .nilDeref
  | (some token, none) =>
    .ok none (setSecurityUserTokenToResourceData token d) [.getUserToken]

/-- `resourceSecurityUserTokenUpdate` (resource_security_user_token.go,
lines 64-73): installed as both the Create and the Update callback. -/
def resourceSecurityUserTokenUpdate (client : NexusClient) (d : UserTokenState) :
    GoResult UserTokenState :=
  let token := getSecurityUserTokenFromResourceData d
  match client.userTokensConfigure token with
  | some e => .ok (some e) d [.configureUserToken token]
  | none => (resourceSecurityUserTokenRead client d).prependEvent (.configureUserToken token)

/-- `resourceSecurityUserTokenDelete` (resource_security_user_token.go,
lines 75-77): the body is `return nil`. -/
def resourceSecurityUserTokenDelete (_client : NexusClient) (d : UserTokenState) :
    GoResult UserTokenState :=
  .ok none d []

/-- The lifecycle callbacks a `schema.Resource` value declares; a field
is `none` when the resource does not set that callback. -/
structure LifecycleCallbacks (σ : Type) where
  createCb : Option (NexusClient → σ → GoResult σ)
  readCb : Option (NexusClient → σ → GoResult σ)
  updateCb : Option (NexusClient → σ → GoResult σ)
  deleteCb : Option (NexusClient → σ → GoResult σ)
  existsCb : Option (NexusClient → σ → Bool × Option Err × List Event)

/-- The callbacks declared by `ResourceSecurityUserToken`
(resource_security_user_token.go, lines 16-19): Create and Update are
the same function. -/
def ResourceSecurityUserToken : LifecycleCallbacks UserTokenState :=
  { createCb := some resourceSecurityUserTokenUpdate,
    readCb := some resourceSecurityUserTokenRead,
    updateCb := some resourceSecurityUserTokenUpdate,
    deleteCb := some resourceSecurityUserTokenDelete,
    existsCb := none }

/-! ## data_source_repository_yum_proxy (src/unnamed/part_001) -/

/-- The Terraform data of the yum proxy repository data source: its id,
the `name` attribute and the attributes filled in by the read. -/
structure YumState where
  id : String
  name : String
  online : Bool
  deriving DecidableEq, Repr

/-- Modelled from the spec: `resourceYumProxyRepositoryRead` is defined
in a file of this repository that is not under src/.  The spec calls a
data source "a read-only Terraform entity that looks up existing remote
state", so the read fetches the proxy repository for the current id and
copies it into the attribute state, performing only read calls. -/
def resourceYumProxyRepositoryRead (client : NexusClient) (d : YumState) :
    GoResult YumState :=
  match client.yumProxyGet d.id with
  | .error e => .ok (some e) d [.getYumProxyRepo d.id]
  | .ok repo => .ok none { d with name := repo.name, online := repo.online } [.getYumProxyRepo d.id]

/-- `dataSourceRepositoryYumProxyRead` (src/unnamed/part_001, lines
33-37): sets the id to the `name` attribute, then delegates to the
proxy repository read. -/
def dataSourceRepositoryYumProxyRead (client : NexusClient) (d : YumState) :
    GoResult YumState :=
  let d := { d with id := d.name }
  resourceYumProxyRepositoryRead client d

/-- The callbacks declared by `DataSourceRepositoryYumProxy`
(src/unnamed/part_001, lines 9-31): only `Read` is set. -/
def DataSourceRepositoryYumProxy : LifecycleCallbacks YumState :=
  { createCb := none,
    readCb := some dataSourceRepositoryYumProxyRead,
    updateCb := none,
    deleteCb := none,
    existsCb := none }

/-! ## Terraform schema declarations -/

/-- The Terraform value types used by the modelled schemas. -/
inductive TfType where
  | tBool
  | tInt
  | tString
  | tList
  deriving DecidableEq, Repr

/-- A literal placed in a schema's `Default` field. -/
inductive DefaultVal where
  | dBool (b : Bool)
  | dInt (n : Int)
  | dString (s : String)
  deriving DecidableEq, Repr

/-- A concrete attribute value handed to a validator. -/
inductive AttrVal where
  | vBool (b : Bool)
  | vInt (n : Int)
  | vString (s : String)
  deriving DecidableEq, Repr

/-- The `ValidateFunc` constructors of the terraform-plugin-sdk
validation helpers that the modelled schemas use. -/
inductive Validator where
  | intAtLeast (min : Int)
  | intBetween (lo : Int) (hi : Int)
  | stringInSlice (valid : List String) (ignoreCase : Bool)
  deriving DecidableEq, Repr

/-- Whether a validator accepts a value: `IntAtLeast(min)` errors on
values below min, `IntBetween(lo, hi)` outside [lo, hi],
`StringInSlice` on strings absent from the slice (the sources only use
`ignoreCase = false`; the case-insensitive comparison is modelled by
lower-casing).  A value of the wrong type is rejected. -/
def Validator.accepts : Validator → AttrVal → Bool
  | .intAtLeast min, .vInt v => min ≤ v
  | .intBetween lo hi, .vInt v => lo ≤ v && v ≤ hi
  | .stringInSlice valid ignoreCase, .vString s =>
    if ignoreCase then valid.any (fun t => t.toLower = s.toLower) else valid.contains s
  | _, _ => false

/-- The scalar fields of one `schema.Schema` declaration. -/
structure AttrFields where
  name : String
  description : String := ""
  sType : TfType
  required : Bool := false
  optional : Bool := false
  computed : Bool := false
  sensitive : Bool := false
  defaultVal : Option DefaultVal := none
  validateFunc : Option Validator := none
  maxItems : Option Nat := none
  deriving DecidableEq, Repr

/-- One schema attribute: its scalar fields plus the sub-schema of its
`Elem` resource (empty for scalar attributes). -/
inductive SchemaAttr where
  | node (fields : AttrFields) (elem : List SchemaAttr)
  deriving Repr

/-- The scalar fields of an attribute. -/
def SchemaAttr.fields : SchemaAttr → AttrFields
  | .node f _ => f

/-- The sub-schema of an attribute's `Elem`. -/
def SchemaAttr.elem : SchemaAttr → List SchemaAttr
  | .node _ es => es

/-- Whether a declared `Default` literal has the attribute's declared
Terraform type. -/
def DefaultVal.matchesType : DefaultVal → TfType → Bool
  | .dBool _, .tBool => true
  | .dInt _, .tInt => true
  | .dString _, .tString => true
  | _, _ => false

/-- Whether one attribute's own `Default`, if declared, matches its own
declared type. -/
def AttrFields.defaultWellTyped (f : AttrFields) : Bool :=
  match f.defaultVal with
  | none => true
  | some v => v.matchesType f.sType

mutual

/-- Whether every `Default` in an attribute and its nested `Elem`
schemas matches its attribute's declared type. -/
def SchemaAttr.allDefaultsWellTyped : SchemaAttr → Bool
  | .node f es => f.defaultWellTyped && allDefaultsWellTypedList es

/-- `SchemaAttr.allDefaultsWellTyped` over a schema list. -/
def allDefaultsWellTypedList : List SchemaAttr → Bool
  | [] => true
  | a :: as => a.allDefaultsWellTyped && allDefaultsWellTypedList as

end

/-! ### The schema of resourceBlobstoreFile (resource_blobstore_file.go, lines 43-91) -/

/-- The `limit` attribute of the `soft_quota` block
(resource_blobstore_file.go, lines 68-73): its description promises a
minimum of 1000000 but its `ValidateFunc` is
`validation.IntAtLeast(100000)`. -/
def softQuotaLimitAttr : AttrFields :=
  { name := "limit",
    description := "The limit in Bytes. Minimum value is 1000000",
    required := true,
    sType := .tInt,
    validateFunc := some (.intAtLeast 100000) }

/-- The `type` attribute of the `soft_quota` block
(resource_blobstore_file.go, lines 74-79). -/
def softQuotaTypeAttr : AttrFields :=
  { name := "type",
    description := "The type to use such as spaceRemainingQuota, or spaceUsedQuota",
    required := true,
    sType := .tString,
    validateFunc := some (.stringInSlice ["spaceRemainingQuota", "spaceUsedQuota"] false) }

/-- The `Schema` map of `resourceBlobstoreFile`
(resource_blobstore_file.go, lines 43-91). -/
def resourceBlobstoreFileSchema : List SchemaAttr :=
  [ .node { name := "name", description := "Blobstore name",
            sType := .tString, required := true } [],
    .node { name := "path",
            description := "The path to the blobstore contents. This can be an absolute path to anywhere on the system nxrm has access to or it can be a path relative to the sonatype-work directory",
            sType := .tString, optional := true } [],
    .node { name := "available_space_in_bytes", description := "Available space in Bytes",
            sType := .tInt, computed := true } [],
    .node { name := "blob_count", description := "Count of blobs",
            sType := .tInt, computed := true } [],
    .node { name := "soft_quota", description := "Soft quota of the blobstore",
            sType := .tList, optional := true, maxItems := some 1 }
      [ .node softQuotaLimitAttr [], .node softQuotaTypeAttr [] ],
    .node { name := "total_size_in_bytes",
            description := "The total size of the blobstore in Bytes",
            sType := .tInt, computed := true } [] ]

/-! ### ResourceHTTPClient (src/unnamed/part_000, lines 9-116) -/

/-- The `user_agent_suffix` attribute of the `connection` block
(src/unnamed/part_000, lines 99-104): a `TypeString` attribute whose
`Default` is the boolean literal `false`. -/
def userAgentSuffixAttr : AttrFields :=
  { name := "user_agent_suffix",
    description := "Custom fragment to append to User-Agent header in HTTP requests",
    optional := true,
    sType := .tString,
    defaultVal := some (.dBool false) }

/-- The `authentication` block of `ResourceHTTPClient`
(src/unnamed/part_000, lines 16-52). -/
def resourceHTTPClientAuthentication : SchemaAttr :=
  .node { name := "authentication",
          description := "Authentication configuration of the HTTP client",
          maxItems := some 1, optional := true, sType := .tList }
    [ .node { name := "type",
              description := "Authentication type. Possible values: `ntlm` or `username`",
              required := true, sType := .tString,
              validateFunc := some (.stringInSlice ["ntlm", "username"] false) } [],
      .node { name := "username", description := "The username used by the proxy repository",
              optional := true, sType := .tString } [],
      .node { name := "password", description := "The password used by the proxy repository",
              optional := true, sensitive := true, sType := .tString } [],
      .node { name := "ntlm_domain", description := "The ntlm domain to connect",
              optional := true, sType := .tString } [],
      .node { name := "ntlm_host", description := "The ntlm host to connect",
              optional := true, sType := .tString } [] ]

/-- The `connection` block of `ResourceHTTPClient`
(src/unnamed/part_000, lines 65-113). -/
def resourceHTTPClientConnection : SchemaAttr :=
  .node { name := "connection",
          description := "Connection configuration of the HTTP client",
          computed := true, optional := true, maxItems := some 1, sType := .tList }
    [ .node { name := "enable_circular_redirects",
              description := "Whether to enable redirects to the same location (may be required by some servers)",
              optional := true, sType := .tBool, defaultVal := some (.dBool false) } [],
      .node { name := "enable_cookies",
              description := "Whether to allow cookies to be stored and used",
              optional := true, sType := .tBool, defaultVal := some (.dBool false) } [],
      .node { name := "retries",
              description := "Total retries if the initial connection attempt suffers a timeout",
              optional := true, sType := .tInt, defaultVal := some (.dInt 0),
              validateFunc := some (.intBetween 0 10) } [],
      .node { name := "timeout",
              description := "Seconds to wait for activity before stopping and retrying the connection",
              optional := true, sType := .tInt, defaultVal := some (.dInt 0),
              validateFunc := some (.intBetween 0 3600) } [],
      .node userAgentSuffixAttr [],
      .node { name := "use_trust_store",
              description := "Use certificates stored in the Nexus Repository Manager truststore to connect to external systems",
              optional := true, sType := .tBool, defaultVal := some (.dBool false) } [] ]

/-- The `ResourceHTTPClient` schema variable (src/unnamed/part_000,
lines 9-116). -/
def ResourceHTTPClient : SchemaAttr :=
  .node { name := "http_client",
          description := "HTTP Client configuration for proxy repositories. Required for docker proxy repositories",
          optional := true, maxItems := some 1, sType := .tList }
    [ resourceHTTPClientAuthentication,
      .node { name := "auto_block",
              description := "Whether to auto-block outbound connections if remote peer is detected as unreachable/unresponsive",
              optional := true, sType := .tBool, defaultVal := some (.dBool true) } [],
      .node { name := "blocked",
              description := "Whether to block outbound connections on the repository",
              optional := true, sType := .tBool, defaultVal := some (.dBool false) } [],
      resourceHTTPClientConnection ]

/-! ## Concrete fixtures used by witnesses and counterexamples -/

/-- A blobstore file resource data taken from the example usage in the
resource's doc comment. -/
def sampleFileState : BlobstoreFileState :=
  { id := "blobstore-file",
    name := "blobstore-file",
    path := some "/nexus-data/blobstore-file",
    soft_quota := [{ limit := 1024000000, sqType := "spaceRemainingQuota" }],
    available_space_in_bytes := 0,
    blob_count := 0,
    total_size_in_bytes := 0 }

/-- A client on which every call succeeds. -/
def happyClient : NexusClient :=
  { fileCreate := fun _ => none,
    fileGet := fun i => (some { name := i, path := "/data", softQuota := none }, none),
    fileUpdate := fun _ _ => none,
    fileDelete := fun _ => none,
    blobstoreList := .ok [],
    userTokensGet := (some { enabled := true, protectContent := false }, none),
    userTokensConfigure := fun _ => none,
    yumProxyGet := fun i => .ok { name := i, online := true } }

/-- A client whose `BlobStore.File.Get` returns a nil blobstore with a
nil error while `BlobStore.List` returns one generic blobstore. -/
def nilGetClient : NexusClient :=
  { happyClient with
    fileGet := fun _ => (none, none),
    blobstoreList := .ok
      [ { name := "other", availableSpaceInBytes := 7, blobCount := 1, totalSizeInBytes := 9 } ] }

/-- A stand-in for the out-of-src `resourceBlobstoreRead`: a read that
returns the state unchanged. -/
def readStub : NexusClient → BlobstoreFileState → GoResult BlobstoreFileState :=
  fun _ s => .ok none s []

/-- A user token resource data with the feature enabled. -/
def sampleTokenState : UserTokenState :=
  { id := "", enabled := true, protect_content := false }

/-! ## Claims -/

/-- Claim C1: the spec and the attribute's own description say the
minimum accepted soft_quota limit is 1000000, but the declared
`ValidateFunc` is `validation.IntAtLeast(100000)`: it accepts every
value from 100000 upward, in particular 999999, which the description
requires to be rejected.  The code contradicts its own schema
description. -/
theorem softQuotaLimit_validator_contradicts_description :
    softQuotaLimitAttr.description = "The limit in Bytes. Minimum value is 1000000"
    ∧ softQuotaLimitAttr.validateFunc = some (.intAtLeast 100000)
    ∧ (Validator.intAtLeast 100000).accepts (.vInt 999999) = true
    ∧ (Validator.intAtLeast 100000).accepts (.vInt 100000) = true
    ∧ (999999 : Int) < 1000000 := by
  exact ⟨rfl, rfl, by decide, by decide, by decide⟩

set_option linter.unreachableTactic false in
set_option linter.unusedTactic false in
/-- Claim C2: `getBlobstoreFileFromResourceData` copies the `name`
attribute into `Name`, copies `path` into `Path` when set and leaves
`Path` empty otherwise, and builds `SoftQuota` from the first
`soft_quota` block exactly when that list attribute is non-empty. -/
theorem getBlobstoreFileFromResourceData_fields (d : BlobstoreFileState) :
    (getBlobstoreFileFromResourceData d).name = d.name
    ∧ (∀ s, d.path = some s → (getBlobstoreFileFromResourceData d).path = s)
    ∧ (d.path = none → (getBlobstoreFileFromResourceData d).path = "")
    ∧ ((getBlobstoreFileFromResourceData d).softQuota = none ↔ d.soft_quota = [])
    ∧ (∀ q qs, d.soft_quota = q :: qs →
        (getBlobstoreFileFromResourceData d).softQuota =
          some { limit := q.limit, sqType := q.sqType }) := by
  obtain ⟨i, n, p, sq, a, b, c⟩ := d
  refine ⟨?_, ?_, ?_, ?_, ?_⟩
  · cases p <;> cases sq <;>
      simp only [getBlobstoreFileFromResourceData, BlobstoreFileState.getOkPath,
        BlobstoreFileState.getPath, Option.getD] <;>
      (split <;> rfl)
  · rintro s rfl
    by_cases hs : s = "" <;>
      cases sq <;>
        simp [getBlobstoreFileFromResourceData, BlobstoreFileState.getOkPath,
          BlobstoreFileState.getPath, hs]
  · rintro rfl
    cases sq <;>
      simp [getBlobstoreFileFromResourceData, BlobstoreFileState.getOkPath,
        BlobstoreFileState.getPath]
  · cases sq <;> cases p <;>
      simp only [getBlobstoreFileFromResourceData, BlobstoreFileState.getOkPath,
        BlobstoreFileState.getPath, Option.getD] <;>
      first
      | (split <;> simp)
      | simp
  · rintro q qs rfl
    cases p <;>
      simp only [getBlobstoreFileFromResourceData, BlobstoreFileState.getOkPath,
        BlobstoreFileState.getPath, Option.getD] <;>
      (split <;> rfl)

/-- Witness for C2 on the doc-comment example state: the path and the
first soft_quota block are carried over. -/
theorem getBlobstoreFileFromResourceData_fields_witness :
    (getBlobstoreFileFromResourceData sampleFileState).path = "/nexus-data/blobstore-file"
    ∧ (getBlobstoreFileFromResourceData sampleFileState).softQuota =
        some { limit := 1024000000, sqType := "spaceRemainingQuota" } :=
  ⟨(getBlobstoreFileFromResourceData_fields sampleFileState).2.1
      "/nexus-data/blobstore-file" rfl,
   (getBlobstoreFileFromResourceData_fields sampleFileState).2.2.2.2
      { limit := 1024000000, sqType := "spaceRemainingQuota" } [] rfl⟩

/-- Claim C3: `resourceBlobstoreFileCreate` passes exactly the
blobstore built by `getBlobstoreFileFromResourceData` to
`BlobStore.File.Create`; on error it returns that error with the
resource data (hence the id) unchanged; on success it sets the id (and
name) to the blobstore's name and then delegates to the blobstore
read. -/
theorem resourceBlobstoreFileCreate_behaviour
    (readFn : NexusClient → BlobstoreFileState → GoResult BlobstoreFileState)
    (client : NexusClient) (d : BlobstoreFileState) :
    (∀ e, client.fileCreate (getBlobstoreFileFromResourceData d) = some e →
      resourceBlobstoreFileCreate readFn client d =
        .ok (some e) d [.createFile (getBlobstoreFileFromResourceData d)])
    ∧ (client.fileCreate (getBlobstoreFileFromResourceData d) = none →
      resourceBlobstoreFileCreate readFn client d =
        (readFn client
            { d with id := (getBlobstoreFileFromResourceData d).name,
                     name := (getBlobstoreFileFromResourceData d).name }).prependEvent
          (.createFile (getBlobstoreFileFromResourceData d))) := by
  constructor
  · intro e he
    simp [resourceBlobstoreFileCreate, he]
  · intro he
    simp [resourceBlobstoreFileCreate, he]

/-- Witness for C3: on the all-success client, Create records the
created blobstore and continues as the read from the renamed state. -/
theorem resourceBlobstoreFileCreate_behaviour_witness :
    resourceBlobstoreFileCreate readStub happyClient sampleFileState =
      (readStub happyClient
          { sampleFileState with
            id := (getBlobstoreFileFromResourceData sampleFileState).name,
            name := (getBlobstoreFileFromResourceData sampleFileState).name }).prependEvent
        (.createFile (getBlobstoreFileFromResourceData sampleFileState)) :=
  (resourceBlobstoreFileCreate_behaviour readStub happyClient sampleFileState).2 rfl

/-- Claim C4 counterexample evaluation: when `BlobStore.File.Get`
returns a nil blobstore and a nil error but `BlobStore.List` returns a
non-empty list, `resourceBlobstoreFileRead` dereferences the nil
blobstore (`generic.Name == bs.Name` inside the range loop, before the
`bs == nil` check), instead of clearing the id and returning nil. -/
theorem resourceBlobstoreFileRead_nil_dereference :
    nilGetClient.fileGet sampleFileState.id = (none, none)
    ∧ resourceBlobstoreFileRead nilGetClient sampleFileState = .nilDeref
    ∧ resourceBlobstoreFileRead { nilGetClient with blobstoreList := .ok [] }
        sampleFileState = .ok none { sampleFileState with id := "" }
          [.getFile sampleFileState.id, .listBlobstores] :=
  ⟨rfl, rfl, rfl⟩

/-- Claim C5: `resourceBlobstoreFileExists` returns true exactly when
`BlobStore.File.Get` returns a non-nil blobstore, and passes the error
from Get through unchanged. -/
theorem resourceBlobstoreFileExists_behaviour (client : NexusClient) (d : BlobstoreFileState) :
    (resourceBlobstoreFileExists client d).1 = (client.fileGet d.id).1.isSome
    ∧ (resourceBlobstoreFileExists client d).2.1 = (client.fileGet d.id).2 := by
  rcases h : client.fileGet d.id with ⟨bsOpt, errOpt⟩
  simp [resourceBlobstoreFileExists, h]

/-- Claim C6: `resourceBlobstoreFileDelete` returns the client error
with the resource data (hence the id) unchanged when
`BlobStore.File.Delete` fails, and clears the id exactly on success. -/
theorem resourceBlobstoreFileDelete_behaviour (client : NexusClient) (d : BlobstoreFileState) :
    (∀ e, client.fileDelete d.id = some e →
      resourceBlobstoreFileDelete client d = .ok (some e) d [.deleteFile d.id])
    ∧ (client.fileDelete d.id = none →
      resourceBlobstoreFileDelete client d =
        .ok none { d with id := "" } [.deleteFile d.id]) := by
  constructor
  · intro e he
    simp [resourceBlobstoreFileDelete, he]
  · intro he
    simp [resourceBlobstoreFileDelete, he]

/-- Witness for C6: deleting on the all-success client clears the id,
and deleting on a failing client returns the failure with the id
kept. -/
theorem resourceBlobstoreFileDelete_behaviour_witness :
    resourceBlobstoreFileDelete happyClient sampleFileState =
      .ok none { sampleFileState with id := "" } [.deleteFile sampleFileState.id]
    ∧ resourceBlobstoreFileDelete { happyClient with fileDelete := fun _ => some "boom" }
        sampleFileState = .ok (some "boom") sampleFileState [.deleteFile sampleFileState.id] :=
  ⟨(resourceBlobstoreFileDelete_behaviour happyClient sampleFileState).2 rfl,
   (resourceBlobstoreFileDelete_behaviour
      { happyClient with fileDelete := fun _ => some "boom" } sampleFileState).1 "boom" rfl⟩

/-- Claim C7: the yum proxy repository data source declares only a Read
callback; that read first sets the id to the `name` attribute, then
delegates to the proxy repository read, and performs no write call
against the remote system. -/
theorem dataSourceRepositoryYumProxy_read_only (client : NexusClient) (d : YumState) :
    DataSourceRepositoryYumProxy.createCb = none
    ∧ DataSourceRepositoryYumProxy.updateCb = none
    ∧ DataSourceRepositoryYumProxy.deleteCb = none
    ∧ DataSourceRepositoryYumProxy.existsCb = none
    ∧ DataSourceRepositoryYumProxy.readCb = some dataSourceRepositoryYumProxyRead
    ∧ dataSourceRepositoryYumProxyRead client d =
        resourceYumProxyRepositoryRead client { d with id := d.name }
    ∧ (dataSourceRepositoryYumProxyRead client d).events.all (fun ev => !ev.isWrite) = true := by
  refine ⟨rfl, rfl, rfl, rfl, rfl, rfl, ?_⟩
  simp only [dataSourceRepositoryYumProxyRead, resourceYumProxyRepositoryRead]
  cases client.yumProxyGet d.name <;> simp [GoResult.events, Event.isWrite]

/-- Claim C8: the user token resource installs
`resourceSecurityUserTokenUpdate` as both its Create and its Update
callback, so the two are extensionally equal; that operation sends the
configuration built from `enabled` and `protect_content` via
`Security.UserTokens.Configure`, returns a Configure error with the
state unchanged, and on success re-reads the remote configuration into
state, which sets the id to "golbalUserTokenConfiguration". -/
theorem resourceSecurityUserToken_create_eq_update (client : NexusClient) (d : UserTokenState) :
    ResourceSecurityUserToken.createCb = ResourceSecurityUserToken.updateCb
    ∧ ResourceSecurityUserToken.createCb = some resourceSecurityUserTokenUpdate
    ∧ (∀ e, client.userTokensConfigure (getSecurityUserTokenFromResourceData d) = some e →
        resourceSecurityUserTokenUpdate client d =
          .ok (some e) d [.configureUserToken (getSecurityUserTokenFromResourceData d)])
    ∧ (client.userTokensConfigure (getSecurityUserTokenFromResourceData d) = none →
        resourceSecurityUserTokenUpdate client d =
          (resourceSecurityUserTokenRead client d).prependEvent
            (.configureUserToken (getSecurityUserTokenFromResourceData d)))
    ∧ (∀ tok, client.userTokensGet = (some tok, none) →
        resourceSecurityUserTokenRead client d =
          .ok none (setSecurityUserTokenToResourceData tok d) [.getUserToken])
    ∧ (∀ tok, (setSecurityUserTokenToResourceData tok d).id = "golbalUserTokenConfiguration") := by
  refine ⟨rfl, rfl, ?_, ?_, ?_, fun tok => rfl⟩
  · intro e he
    simp [resourceSecurityUserTokenUpdate, he]
  · intro he
    simp [resourceSecurityUserTokenUpdate, he]
  · intro tok htok
    simp [resourceSecurityUserTokenRead, htok]

/-- Witness for C8: on the all-success client the shared Create/Update
callback configures and then stores the re-read configuration under the
fixed id. -/
theorem resourceSecurityUserToken_create_eq_update_witness :
    resourceSecurityUserTokenUpdate happyClient sampleTokenState =
      (resourceSecurityUserTokenRead happyClient sampleTokenState).prependEvent
        (.configureUserToken (getSecurityUserTokenFromResourceData sampleTokenState))
    ∧ resourceSecurityUserTokenRead happyClient sampleTokenState =
        .ok none
          (setSecurityUserTokenToResourceData
            { enabled := true, protectContent := false } sampleTokenState)
          [.getUserToken] :=
  ⟨(resourceSecurityUserToken_create_eq_update happyClient sampleTokenState).2.2.2.1 rfl,
   (resourceSecurityUserToken_create_eq_update happyClient sampleTokenState).2.2.2.2.1
      { enabled := true, protectContent := false } rfl⟩

/-- Claim C9 counterexample evaluation: in the `ResourceHTTPClient`
schema the `user_agent_suffix` attribute is declared `TypeString` yet
its `Default` is the boolean literal false, so not every declared
default has its attribute's own type. -/
theorem resourceHTTPClient_default_type_mismatch :
    userAgentSuffixAttr.sType = TfType.tString
    ∧ userAgentSuffixAttr.defaultVal = some (.dBool false)
    ∧ userAgentSuffixAttr.defaultWellTyped = false
    ∧ SchemaAttr.allDefaultsWellTyped ResourceHTTPClient = false := by
  exact ⟨rfl, rfl, rfl, by decide⟩

/-- Claim C10: `resourceSecurityUserTokenDelete` is the resource's
Delete callback; it returns nil on every input, changes nothing in the
resource data, and performs no client call. -/
theorem resourceSecurityUserTokenDelete_noop (client : NexusClient) (d : UserTokenState) :
    ResourceSecurityUserToken.deleteCb = some resourceSecurityUserTokenDelete
    ∧ resourceSecurityUserTokenDelete client d = .ok none d [] :=
  ⟨rfl, rfl⟩

end NexusProvider
